import Mathlib

/-!
# UP language server: document store and diagnostics

A shallow embedding of `language-server/server/server.go`.

* The Go map `documents map[protocol.DocumentURI]*Document` is a function from
  URIs to optional documents.  Every pointer stored in the map is created by
  `HandleDidOpen` and stored under one key only, so an in-place mutation through
  the pointer is the replacement of the entry under that key.
* The parser `up.Parser` is an external library: `ParseDocument` is a field of the
  server, a function from the text to either an error message (the Go result
  with `err != nil`) or a parsed document of an arbitrary type `P` (the Go
  result with `err == nil`).
* A Go `error` is its message; `nil` is `none`.
* Logging is not modelled, except that evaluating the arguments of a log call
  can dereference a `nil` pointer.
* A handler is a function from the server state and the parameters to the new
  server state and what the Go method returns.
-/

namespace UpLsp

/-! ## Protocol types (the fields the server reads or writes) -/

/-- The type `protocol.DocumentURI`, a string. -/
abbrev DocumentURI := String

/-- The type `protocol.Position`. -/
structure Position where
  Line : Nat
  Character : Nat
  deriving DecidableEq, Repr

/-- The type `protocol.Range`; the field `End` is named `End_` here. -/
structure Range where
  Start : Position
  End_ : Position
  deriving DecidableEq, Repr

/-- The type `protocol.DiagnosticSeverity`. -/
inductive DiagnosticSeverity where
  | Error
  | Warning
  | Information
  | Hint
  deriving DecidableEq, Repr

/-- The type `protocol.Diagnostic`, with the fields `parseDocument` sets. -/
structure Diagnostic where
  Range : Range
  Severity : DiagnosticSeverity
  Source : String
  Message : String
  deriving DecidableEq, Repr

/-- The type `protocol.TextDocumentItem`. -/
structure TextDocumentItem where
  URI : DocumentURI
  LanguageID : String
  Version : Int
  Text : String
  deriving DecidableEq, Repr

/-- The type `protocol.VersionedTextDocumentIdentifier`. -/
structure VersionedTextDocumentIdentifier where
  URI : DocumentURI
  Version : Int
  deriving DecidableEq, Repr

/-- The type `protocol.TextDocumentIdentifier`. -/
structure TextDocumentIdentifier where
  URI : DocumentURI
  deriving DecidableEq, Repr

/-- The type `protocol.TextDocumentContentChangeEvent`. -/
structure TextDocumentContentChangeEvent where
  Range : Option Range
  RangeLength : Nat
  Text : String
  deriving DecidableEq, Repr

/-- The type `protocol.DidOpenTextDocumentParams`. -/
structure DidOpenTextDocumentParams where
  TextDocument : TextDocumentItem
  deriving DecidableEq, Repr

/-- The type `protocol.DidChangeTextDocumentParams`. -/
structure DidChangeTextDocumentParams where
  TextDocument : VersionedTextDocumentIdentifier
  ContentChanges : List TextDocumentContentChangeEvent
  deriving DecidableEq, Repr

/-- The type `protocol.DidCloseTextDocumentParams`. -/
structure DidCloseTextDocumentParams where
  TextDocument : TextDocumentIdentifier
  deriving DecidableEq, Repr

/-- The type `protocol.HoverParams`: a text document and a position. -/
structure HoverParams where
  TextDocument : TextDocumentIdentifier
  Position : Position
  deriving DecidableEq, Repr

/-- The type `protocol.MarkupKind`. -/
inductive MarkupKind where
  | PlainText
  | Markdown
  deriving DecidableEq, Repr

/-- The type `protocol.MarkupContent`. -/
structure MarkupContent where
  Kind : MarkupKind
  Value : String
  deriving DecidableEq, Repr

/-- The type `protocol.Hover`; `Range` is the optional range, `nil` when unset. -/
structure Hover where
  Contents : MarkupContent
  Range : Option Range
  deriving DecidableEq, Repr

/-- The type `protocol.TextDocumentSyncKind`. -/
inductive TextDocumentSyncKind where
  | None
  | Full
  | Incremental
  deriving DecidableEq, Repr

/-- The type `protocol.TextDocumentSyncOptions`. -/
structure TextDocumentSyncOptions where
  OpenClose : Bool
  Change : TextDocumentSyncKind
  deriving DecidableEq, Repr

/-- The type `protocol.CompletionOptions`. -/
structure CompletionOptions where
  TriggerCharacters : List String
  deriving DecidableEq, Repr

/-- The type `protocol.ServerCapabilities`, with the fields `NewServer` sets. -/
structure ServerCapabilities where
  TextDocumentSync : TextDocumentSyncOptions
  CompletionProvider : Option CompletionOptions
  HoverProvider : Bool
  DocumentFormattingProvider : Bool
  DocumentSymbolProvider : Bool
  DefinitionProvider : Bool
  deriving DecidableEq, Repr

/-- The type `protocol.ClientInfo`. -/
structure ClientInfo where
  Name : String
  Version : String
  deriving DecidableEq, Repr

/-- The type `protocol.InitializeParams`.  `ClientInfo` is a pointer in the
library, absent from the message when the client sends none (`none` is `nil`). -/
structure InitializeParams where
  ProcessID : Int
  ClientInfo : Option ClientInfo
  Locale : String
  RootURI : DocumentURI
  deriving DecidableEq, Repr

/-- The type `protocol.ServerInfo`. -/
structure ServerInfo where
  Name : String
  Version : String
  deriving DecidableEq, Repr

/-- The type `protocol.InitializeResult`. -/
structure InitializeResult where
  Capabilities : ServerCapabilities
  ServerInfo : Option ServerInfo
  deriving DecidableEq, Repr

/-- The type `protocol.CompletionParams`: a text document and a position. -/
structure CompletionParams where
  TextDocument : TextDocumentIdentifier
  Position : Position
  deriving DecidableEq, Repr

/-- The type `protocol.CompletionItemKind`, the first fourteen kinds. -/
inductive CompletionItemKind where
  | Text
  | Method
  | Function
  | Constructor
  | Field
  | Variable
  | Class
  | Interface
  | Module
  | Property
  | Unit
  | Value
  | Enum
  | Keyword
  deriving DecidableEq, Repr

/-- The type `protocol.CompletionItem`, with the fields `getCompletions` sets. -/
structure CompletionItem where
  Label : String
  Kind : CompletionItemKind
  Detail : String
  deriving DecidableEq, Repr

/-- The type `protocol.CompletionList`. -/
structure CompletionList where
  IsIncomplete : Bool
  Items : List CompletionItem
  deriving DecidableEq, Repr

/-- A run-time panic of the Go program. -/
inductive Panic where
  | nilPointerDereference
  deriving DecidableEq, Repr

/-! ## The server -/

/-- The struct `Document`: a cached document.  `Parsed` is a pointer in the
source (`none` is `nil`), `Errors` a slice (`[]` is `nil`). -/
structure Document (P : Type) where
  URI : DocumentURI
  Version : Int
  Content : String
  Parsed : Option P
  Errors : List Diagnostic
  deriving DecidableEq

/-- The struct `Server`.  `parser` is `s.parser.ParseDocument` applied to the
text; the logger is left out. -/
structure Server (P : Type) where
  parser : String → Except String P
  documents : DocumentURI → Option (Document P)
  capabilities : ServerCapabilities

variable {P : Type}

/-- The Go statement `m[uri] = doc` on the document map. -/
def mapStore (m : DocumentURI → Option (Document P)) (uri : DocumentURI)
    (doc : Document P) : DocumentURI → Option (Document P) :=
  fun k => if k = uri then some doc else m k

/-- The Go statement `delete(m, uri)` on the document map. -/
def mapDelete (m : DocumentURI → Option (Document P)) (uri : DocumentURI) :
    DocumentURI → Option (Document P) :=
  fun k => if k = uri then none else m k

/-- The function `NewServer`: an empty document map and the fixed capabilities.
The parser made by `up.NewParser()` is the argument. -/
def NewServer (parser : String → Except String P) : Server P :=
  { parser := parser
    documents := fun _ => none
    capabilities :=
      { TextDocumentSync := { OpenClose := true, Change := TextDocumentSyncKind.Full }
        CompletionProvider := some { TriggerCharacters := ["!", "@", "."] }
        HoverProvider := true
        DocumentFormattingProvider := true
        DocumentSymbolProvider := true
        DefinitionProvider := true } }

/-- The diagnostic `parseDocument` appends for the parser error `err`. -/
def parseErrorDiagnostic (err : String) : Diagnostic :=
  { Range := { Start := { Line := 0, Character := 0 }, End_ := { Line := 0, Character := 100 } }
    Severity := DiagnosticSeverity.Error
    Source := "up-parser"
    Message := err }

/-- The method `parseDocument`: clears `Errors`, parses `Content`; on an error it
appends one diagnostic and returns, otherwise it sets `Parsed`. -/
def parseDocument (s : Server P) (doc : Document P) : Document P :=
  let doc := { doc with Errors := [] }
  match s.parser doc.Content with
  | Except.error err => { doc with Errors := doc.Errors ++ [parseErrorDiagnostic err] }
  | Except.ok parsed => { doc with Parsed := some parsed }

/-- The method `publishDiagnostics`: logs and returns `nil`. -/
def publishDiagnostics (_s : Server P) (_doc : Document P) : Option String :=
  none

/-- The method `HandleDidOpen`. -/
def HandleDidOpen (s : Server P) (params : DidOpenTextDocumentParams) :
    Server P × Option String :=
  let uri := params.TextDocument.URI
  let doc : Document P :=
    { URI := uri
      Version := params.TextDocument.Version
      Content := params.TextDocument.Text
      Parsed := none
      Errors := [] }
  let doc := parseDocument s doc
  let s := { s with documents := mapStore s.documents uri doc }
  (s, publishDiagnostics s doc)

/-- The method `HandleDidChange`.  The document is mutated through the pointer
held in the map, so the entry under `uri` is the mutated document. -/
def HandleDidChange (s : Server P) (params : DidChangeTextDocumentParams) :
    Server P × Option String :=
  let uri := params.TextDocument.URI
  match s.documents uri with
  | none => (s, some ("document not found: " ++ uri))
  | some doc =>
    let doc :=
      match params.ContentChanges with
      | c :: _ => { doc with Content := c.Text, Version := params.TextDocument.Version }
      | [] => doc
    let doc := parseDocument s doc
    let s := { s with documents := mapStore s.documents uri doc }
    (s, publishDiagnostics s doc)

/-- The method `HandleDidClose`. -/
def HandleDidClose (s : Server P) (params : DidCloseTextDocumentParams) :
    Server P × Option String :=
  let uri := params.TextDocument.URI
  ({ s with documents := mapDelete s.documents uri }, none)

/-- The method `getHover`. -/
def getHover (_s : Server P) (_doc : Document P) (_pos : Position) : Hover :=
  { Contents :=
      { Kind := MarkupKind.Markdown
        Value := "**UP Document**\n\nHover information for UP files." }
    Range := none }

/-- The method `HandleHover`: the state, the hover (`none` is `nil`) and the error. -/
def HandleHover (s : Server P) (params : HoverParams) :
    Server P × Option Hover × Option String :=
  let uri := params.TextDocument.URI
  match s.documents uri with
  | none => (s, none, none)
  | some doc => (s, some (getHover s doc params.Position), none)

/-- The method `HandleInitialize`.  The arguments of the log call are evaluated
first: `params.ClientInfo.Name` dereferences the pointer `ClientInfo`, which
panics when it is `nil`.  Otherwise the result holds the capabilities of the
server and the fixed server info, with a `nil` error. -/
def HandleInitialize (s : Server P) (params : InitializeParams) :
    Server P × Except Panic (InitializeResult × Option String) :=
  match params.ClientInfo with
  | none => (s, Except.error Panic.nilPointerDereference)
  | some _clientInfo =>
    (s, Except.ok
      ({ Capabilities := s.capabilities
         ServerInfo := some { Name := "up-language-server", Version := "1.0.0" } }, none))

/-- The method `getCompletions`: the keyword items followed by the namespace items. -/
def getCompletions (_s : Server P) (_doc : Document P) (_pos : Position) :
    List CompletionItem :=
  let items : List CompletionItem :=
    [ { Label := "!int", Kind := CompletionItemKind.Keyword
        Detail := "Integer type annotation" },
      { Label := "!bool", Kind := CompletionItemKind.Keyword
        Detail := "Boolean type annotation" },
      { Label := "!string", Kind := CompletionItemKind.Keyword
        Detail := "String type annotation" },
      { Label := "!dur", Kind := CompletionItemKind.Keyword
        Detail := "Duration type annotation" },
      { Label := "!ts", Kind := CompletionItemKind.Keyword
        Detail := "Timestamp type annotation" },
      { Label := "!uuid", Kind := CompletionItemKind.Keyword
        Detail := "UUID type annotation" } ]
  let namespaceItems : List CompletionItem :=
    [ { Label := "@string.", Kind := CompletionItemKind.Module
        Detail := "String manipulation functions" },
      { Label := "@math.", Kind := CompletionItemKind.Module
        Detail := "Math operations" },
      { Label := "@time.", Kind := CompletionItemKind.Module
        Detail := "Time and date functions" },
      { Label := "@random.", Kind := CompletionItemKind.Module
        Detail := "Random generation" } ]
  items ++ namespaceItems

/-- The method `HandleCompletion`: the state, the completion list (`none` is
`nil`) and the error. -/
def HandleCompletion (s : Server P) (params : CompletionParams) :
    Server P × Option CompletionList × Option String :=
  let uri := params.TextDocument.URI
  match s.documents uri with
  | none => (s, none, some ("document not found: " ++ uri))
  | some doc =>
    let items := getCompletions s doc params.Position
    (s, some { IsIncomplete := false, Items := items }, none)

/-! ## Sequences of notifications -/

/-- The server state after the `didChange` notifications `cs`, handled in order. -/
def runDidChanges (s : Server P) : List DidChangeTextDocumentParams → Server P
  | [] => s
  | c :: cs => runDidChanges (HandleDidChange s c).1 cs

/-! ## Positions reported by the parser -/

/-- Modelled from the spec: the record `SyntaxError` the external parser reports
a failure with, a message and a 0-based line and column. -/
structure SyntaxError where
  message : String
  line : Nat
  column : Nat
  deriving DecidableEq, Repr

/-- The parser as the server sees it, for a parser that reports `SyntaxError`
records: the Go `error` gives `parseDocument` its message through `Error()` and
nothing else. -/
def asGoParser (parse : String → Except SyntaxError P) : String → Except String P :=
  fun text =>
    match parse text with
    | Except.error e => Except.error e.message
    | Except.ok parsed => Except.ok parsed

/-- Modelled from the spec: a range spans a position when the position is at or
after the start of the range and at or before its end, lines compared first. -/
def rangeSpans (r : Range) (p : Position) : Bool :=
  (r.Start.Line < p.Line || (r.Start.Line == p.Line && r.Start.Character ≤ p.Character))
    && (p.Line < r.End_.Line || (p.Line == r.End_.Line && p.Character ≤ r.End_.Character))

/-! ## Concrete inputs -/

/-- A parser for concrete inputs: it rejects the text `name !!!` with the message
`unexpected token` and accepts every other text, returning the text itself as
its parsed representation. -/
def sampleParser (text : String) : Except String String :=
  if text = "name !!!" then Except.error "unexpected token" else Except.ok text

/-- A `didOpen` for `uri` with the given version and text. -/
def mkOpen (uri : DocumentURI) (version : Int) (text : String) : DidOpenTextDocumentParams :=
  { TextDocument := { URI := uri, LanguageID := "up", Version := version, Text := text } }

/-- A `didChange` for `uri` with the given version and one full-text change. -/
def mkChange (uri : DocumentURI) (version : Int) (text : String) :
    DidChangeTextDocumentParams :=
  { TextDocument := { URI := uri, Version := version }
    ContentChanges := [{ Range := none, RangeLength := 0, Text := text }] }

/-- A `didChange` for `uri` with the given version and no content change. -/
def mkEmptyChange (uri : DocumentURI) (version : Int) : DidChangeTextDocumentParams :=
  { TextDocument := { URI := uri, Version := version }, ContentChanges := [] }

/-- A `didClose` for `uri`. -/
def mkClose (uri : DocumentURI) : DidCloseTextDocumentParams :=
  { TextDocument := { URI := uri } }

/-- A parser reporting positions, for concrete inputs: it rejects `name !!!` at
line 0, column 5 and `name John\nage !!!` at line 1, column 4, both with the
message `unexpected token`, and accepts every other text. -/
def samplePositionParser (text : String) : Except SyntaxError String :=
  if text = "name !!!" then
    Except.error { message := "unexpected token", line := 0, column := 5 }
  else if text = "name John\nage !!!" then
    Except.error { message := "unexpected token", line := 1, column := 4 }
  else Except.ok text

/-- A `completion` request for `uri` at the given line and character. -/
def mkCompletion (uri : DocumentURI) (line character : Nat) : CompletionParams :=
  { TextDocument := { URI := uri }, Position := { Line := line, Character := character } }

/-- A `hover` request for `uri` at the given line and character. -/
def mkHover (uri : DocumentURI) (line character : Nat) : HoverParams :=
  { TextDocument := { URI := uri }, Position := { Line := line, Character := character } }

end UpLsp

/-!
# UP REPL: the input loop

A shallow embedding of the loop of `runREPL` in `repl/main.go`.  The lines that
`rl.Readline()` returns before it fails are a list; the calls of `evaluateInput`
are recorded, in order, by the inputs they are given.  The text of a
`strings.Builder` is a string.
-/

namespace UpRepl

/-- The Go function `unicode.IsSpace`. -/
def isSpace (c : Char) : Bool :=
  c.toNat = 0x09 || c.toNat = 0x0A || c.toNat = 0x0B || c.toNat = 0x0C || c.toNat = 0x0D
    || c.toNat = 0x20 || c.toNat = 0x85 || c.toNat = 0xA0 || c.toNat = 0x1680
    || (0x2000 ≤ c.toNat && c.toNat ≤ 0x200A) || c.toNat = 0x2028 || c.toNat = 0x2029
    || c.toNat = 0x202F || c.toNat = 0x205F || c.toNat = 0x3000

/-- The Go function `strings.TrimSpace`: the text without its leading and trailing
white space. -/
def TrimSpace (text : String) : String :=
  ⟨((text.data.dropWhile isSpace).reverse.dropWhile isSpace).reverse⟩

/-- The Go function `strings.HasPrefix`. -/
def HasPrefix (text start : String) : Bool :=
  start.data.isPrefixOf text.data

/-- The Go function `strings.HasSuffix`. -/
def HasSuffix (text ending : String) : Bool :=
  ending.data.isSuffixOf text.data

/-- The variables of the loop of `runREPL`: the text of `buffer`, the flag
`multiline`, and the inputs `evaluateInput` has been called with so far. -/
structure ReplState where
  buffer : String
  multiline : Bool
  evaluated : List String
  deriving DecidableEq, Repr

/-- The function `handleCommand`: the new text of the buffer, the new flag, and
the returned boolean (`true` leaves the loop). -/
def handleCommand (cmd : String) (buffer : String) (multiline : Bool) :
    String × Bool × Bool :=
  if cmd = ".help" ∨ cmd = ".h" then (buffer, multiline, false)
  else if cmd = ".exit" ∨ cmd = ".quit" ∨ cmd = ".q" then (buffer, multiline, true)
  else if cmd = ".clear" ∨ cmd = ".c" then ("", false, false)
  else (buffer, multiline, false)

/-- The body of the `for` loop of `runREPL` on one line read: the new state, and
`true` when the loop is left by `break`. -/
def loopBody (st : ReplState) (rawLine : String) : ReplState × Bool :=
  let line := TrimSpace rawLine
  if HasPrefix line "." then
    let r := handleCommand line st.buffer st.multiline
    ({ st with buffer := r.1, multiline := r.2.1 }, r.2.2)
  else
    let buffer := if st.multiline then st.buffer ++ "\n" else st.buffer
    let buffer := buffer ++ line
    if HasSuffix line "\x7b" || HasSuffix line "[" then
      ({ st with buffer := buffer, multiline := true }, false)
    else
      let multiline := if line == "\x7d" || line == "]" then false else st.multiline
      if !multiline then
        let input := buffer
        let evaluated := if input != "" then st.evaluated ++ [input] else st.evaluated
        ({ buffer := "", multiline := multiline, evaluated := evaluated }, false)
      else
        ({ buffer := buffer, multiline := multiline, evaluated := st.evaluated }, false)

/-- The `for` loop of `runREPL` over the lines read; it ends when `Readline`
fails (no line is left) or at a `break`. -/
def loop (st : ReplState) : List String → ReplState
  | [] => st
  | rawLine :: rest =>
    if (loopBody st rawLine).2 then (loopBody st rawLine).1
    else loop (loopBody st rawLine).1 rest

/-- The function `runREPL` on the lines read: the inputs passed to
`evaluateInput`, in order.  The buffer starts empty and `multiline` false. -/
def runREPL (rawLines : List String) : List String :=
  (loop { buffer := "", multiline := false, evaluated := [] } rawLines).evaluated

/-! ## Opening and closing lines -/

/-- A line opens a block or list: it ends in `{` or `[`. -/
def opensBlock (line : String) : Bool :=
  HasSuffix line "\x7b" || HasSuffix line "["

/-- A line closes a block or list: it is exactly `}` or `]`. -/
def closesBlock (line : String) : Bool :=
  line == "\x7d" || line == "]"

/-- The lines of a text, split at the newlines; `cur` is the line read so far,
reversed. -/
def splitLines : List Char → List Char → List String
  | [], cur => [⟨cur.reverse⟩]
  | c :: cs, cur =>
    if c = '\n' then ⟨cur.reverse⟩ :: splitLines cs [] else splitLines cs (c :: cur)

/-- The number of opening lines of an input. -/
def openingLines (input : String) : Nat :=
  (splitLines input.data []).countP opensBlock

/-- The number of closing lines of an input. -/
def closingLines (input : String) : Nat :=
  (splitLines input.data []).countP closesBlock

/-- The text the loop builds in the buffer from a first line and the lines read
after it in multiline mode: each is written after a newline. -/
def joinLines (first : String) (rest : List String) : String :=
  rest.foldl (fun b l => b ++ "\n" ++ l) first

/-- A text holds no newline, as a line returned by `rl.Readline()` does. -/
def noNewline (text : String) : Prop :=
  '\n' ∉ text.data

instance (text : String) : Decidable (noNewline text) :=
  inferInstanceAs (Decidable ('\n' ∉ text.data))

/-- The shape of an input the loop evaluates: one non-empty line that opens no
block, or a line that opens a block, then lines none of which is a closing line,
then one closing line. -/
def EvaluatedShape (input : String) : Prop :=
  (input ≠ "" ∧ opensBlock input = false ∧ noNewline input)
  ∨ ∃ (first : String) (middle : List String) (last : String),
      input = joinLines first (middle ++ [last])
      ∧ opensBlock first = true
      ∧ (∀ l ∈ middle, closesBlock l = false)
      ∧ closesBlock last = true
      ∧ noNewline first
      ∧ (∀ l ∈ middle, noNewline l)

/-- The invariant of the loop: outside multiline mode the buffer is empty; in
multiline mode it holds a line that opens a block followed by lines none of which
is a closing line; every input evaluated so far has the shape above. -/
def LoopInvariant (st : ReplState) : Prop :=
  (st.multiline = false → st.buffer = "")
  ∧ (st.multiline = true →
      ∃ (first : String) (middle : List String),
        st.buffer = joinLines first middle
        ∧ opensBlock first = true
        ∧ (∀ l ∈ middle, closesBlock l = false)
        ∧ noNewline first
        ∧ (∀ l ∈ middle, noNewline l))
  ∧ ∀ input ∈ st.evaluated, EvaluatedShape input

end UpRepl

namespace UpLsp

variable {P : Type}

/-! ## Lemmas on the document map -/

theorem mapStore_same (m : DocumentURI → Option (Document P)) (uri : DocumentURI)
    (doc : Document P) : mapStore m uri doc uri = some doc := by
  simp [mapStore]

theorem mapDelete_same (m : DocumentURI → Option (Document P)) (uri : DocumentURI) :
    mapDelete m uri uri = none := by
  simp [mapDelete]

theorem mapDelete_absent (m : DocumentURI → Option (Document P)) (uri : DocumentURI)
    (h : m uri = none) : mapDelete m uri = m := by
  funext k
  by_cases hk : k = uri
  · subst hk; simp [mapDelete, h]
  · simp [mapDelete, hk]

theorem mapDelete_idem (m : DocumentURI → Option (Document P)) (uri : DocumentURI) :
    mapDelete (mapDelete m uri) uri = mapDelete m uri :=
  mapDelete_absent _ _ (mapDelete_same m uri)

/-! ## Lemmas on the handlers -/

theorem HandleDidOpen_documents (s : Server P) (params : DidOpenTextDocumentParams) :
    (HandleDidOpen s params).1.documents params.TextDocument.URI
      = some (parseDocument s
          { URI := params.TextDocument.URI
            Version := params.TextDocument.Version
            Content := params.TextDocument.Text
            Parsed := none
            Errors := [] }) := by
  simp [HandleDidOpen, mapStore]

theorem HandleDidChange_present (s : Server P) (params : DidChangeTextDocumentParams)
    (doc : Document P) (h : s.documents params.TextDocument.URI = some doc) :
    HandleDidChange s params
      = ({ s with documents := (mapStore s.documents params.TextDocument.URI
            (parseDocument s
              (match params.ContentChanges with
               | c :: _ => { doc with Content := c.Text, Version := params.TextDocument.Version }
               | [] => doc))) }, none) := by
  simp only [HandleDidChange, h, publishDiagnostics]

theorem HandleDidChange_keeps (s : Server P) (params : DidChangeTextDocumentParams)
    (h : (s.documents params.TextDocument.URI).isSome = true) :
    ((HandleDidChange s params).1.documents params.TextDocument.URI).isSome = true := by
  obtain ⟨doc, hdoc⟩ := Option.isSome_iff_exists.mp h
  rw [HandleDidChange_present s params doc hdoc]
  simp [mapStore]

theorem runDidChanges_keeps (uri : DocumentURI) :
    ∀ (cs : List DidChangeTextDocumentParams) (s : Server P),
      (∀ c ∈ cs, c.TextDocument.URI = uri) →
      (s.documents uri).isSome = true →
      ((runDidChanges s cs).documents uri).isSome = true
  | [], _, _, h => h
  | c :: cs, s, hcs, h => by
    have hc : c.TextDocument.URI = uri := hcs c (List.mem_cons_self c cs)
    have hstep : ((HandleDidChange s c).1.documents uri).isSome = true := by
      have := HandleDidChange_keeps s c (by rw [hc]; exact h)
      rwa [hc] at this
    exact runDidChanges_keeps uri cs (HandleDidChange s c).1
      (fun d hd => hcs d (List.mem_cons_of_mem c hd)) hstep

theorem parseDocument_ok (s : Server P) (doc : Document P) (parsed : P)
    (h : s.parser doc.Content = Except.ok parsed) :
    parseDocument s doc = { doc with Errors := [], Parsed := some parsed } := by
  simp [parseDocument, h]

theorem parseDocument_error (s : Server P) (doc : Document P) (err : String)
    (h : s.parser doc.Content = Except.error err) :
    parseDocument s doc = { doc with Errors := [parseErrorDiagnostic err] } := by
  simp [parseDocument, h]

theorem HandleDidChange_absent (s : Server P) (params : DidChangeTextDocumentParams)
    (h : s.documents params.TextDocument.URI = none) :
    HandleDidChange s params
      = (s, some ("document not found: " ++ params.TextDocument.URI)) := by
  simp only [HandleDidChange, h]

theorem HandleDidChange_success (s : Server P) (params : DidChangeTextDocumentParams)
    (h : (HandleDidChange s params).2 = none) :
    ∃ doc, s.documents params.TextDocument.URI = some doc := by
  cases hdoc : s.documents params.TextDocument.URI with
  | none => rw [HandleDidChange_absent s params hdoc] at h; cases h
  | some doc => exact ⟨doc, rfl⟩

theorem HandleDidChange_documents (s : Server P) (params : DidChangeTextDocumentParams)
    (doc : Document P) (h : s.documents params.TextDocument.URI = some doc) :
    (HandleDidChange s params).1.documents params.TextDocument.URI
      = some (parseDocument s
          (match params.ContentChanges with
           | c :: _ => { doc with Content := c.Text, Version := params.TextDocument.Version }
           | [] => doc)) := by
  rw [HandleDidChange_present s params doc h]
  simp [mapStore]

theorem parseDocument_Content (s : Server P) (doc : Document P) :
    (parseDocument s doc).Content = doc.Content := by
  cases h : s.parser doc.Content <;> simp [parseDocument, h]

theorem parseDocument_Version (s : Server P) (doc : Document P) :
    (parseDocument s doc).Version = doc.Version := by
  cases h : s.parser doc.Content <;> simp [parseDocument, h]

theorem HandleDidClose_absent (s : Server P) (params : DidCloseTextDocumentParams)
    (h : s.documents params.TextDocument.URI = none) :
    (HandleDidClose s params).1 = s := by
  cases s with
  | mk parser documents capabilities =>
    simp only [HandleDidClose]
    rw [mapDelete_absent documents params.TextDocument.URI h]

theorem mapStore_other (m : DocumentURI → Option (Document P)) (uri u : DocumentURI)
    (doc : Document P) (h : u ≠ uri) : mapStore m uri doc u = m u := by
  simp [mapStore, h]

theorem mapDelete_other (m : DocumentURI → Option (Document P)) (uri u : DocumentURI)
    (h : u ≠ uri) : mapDelete m uri u = m u := by
  simp [mapDelete, h]

theorem HandleCompletion_absent (s : Server P) (params : CompletionParams)
    (h : s.documents params.TextDocument.URI = none) :
    HandleCompletion s params
      = (s, none, some ("document not found: " ++ params.TextDocument.URI)) := by
  simp only [HandleCompletion, h]

/-! ## Claims -/

/-- C1: after `HandleDidOpen` for a URI and after each of any number of following
`HandleDidChange` notifications for that URI the store holds an entry under the
URI, and after a following `HandleDidClose` for the URI it holds none. -/
theorem lifecycle_open_change_close (s : Server P) (o : DidOpenTextDocumentParams)
    (cs : List DidChangeTextDocumentParams) (cl : DidCloseTextDocumentParams)
    (hcs : ∀ c ∈ cs, c.TextDocument.URI = o.TextDocument.URI)
    (hcl : cl.TextDocument.URI = o.TextDocument.URI) :
    (∀ k, k ≤ cs.length →
        ((runDidChanges (HandleDidOpen s o).1 (cs.take k)).documents
          o.TextDocument.URI).isSome = true)
    ∧ (HandleDidClose (runDidChanges (HandleDidOpen s o).1 cs) cl).1.documents
          o.TextDocument.URI = none := by
  refine ⟨fun k _ => ?_, ?_⟩
  · apply runDidChanges_keeps
    · intro c hc
      exact hcs c (List.mem_of_mem_take hc)
    · rw [HandleDidOpen_documents]; rfl
  · simp only [HandleDidClose, hcl]
    exact mapDelete_same _ _

/-- Witness of C1: an open, two changes (the second with rejected text) and a
close of `file:///a.up` on a server that already holds `file:///b.up`. -/
theorem lifecycle_open_change_close_witness :
    (∀ c ∈ [mkChange "file:///a.up" 2 "name Jane", mkChange "file:///a.up" 3 "name !!!"],
        c.TextDocument.URI = (mkOpen "file:///a.up" 1 "name John").TextDocument.URI)
    ∧ (mkClose "file:///a.up").TextDocument.URI
        = (mkOpen "file:///a.up" 1 "name John").TextDocument.URI
    ∧ (∀ k, k ≤ [mkChange "file:///a.up" 2 "name Jane",
                  mkChange "file:///a.up" 3 "name !!!"].length →
        ((runDidChanges
            (HandleDidOpen
              (HandleDidOpen (NewServer sampleParser) (mkOpen "file:///b.up" 1 "x 1")).1
              (mkOpen "file:///a.up" 1 "name John")).1
            ([mkChange "file:///a.up" 2 "name Jane",
              mkChange "file:///a.up" 3 "name !!!"].take k)).documents
          (mkOpen "file:///a.up" 1 "name John").TextDocument.URI).isSome = true)
    ∧ (HandleDidClose
          (runDidChanges
            (HandleDidOpen
              (HandleDidOpen (NewServer sampleParser) (mkOpen "file:///b.up" 1 "x 1")).1
              (mkOpen "file:///a.up" 1 "name John")).1
            [mkChange "file:///a.up" 2 "name Jane", mkChange "file:///a.up" 3 "name !!!"])
          (mkClose "file:///a.up")).1.documents
          (mkOpen "file:///a.up" 1 "name John").TextDocument.URI = none :=
  have h1 : ∀ c ∈ [mkChange "file:///a.up" 2 "name Jane", mkChange "file:///a.up" 3 "name !!!"],
      c.TextDocument.URI = (mkOpen "file:///a.up" 1 "name John").TextDocument.URI := by
    intro c hc
    simp only [List.mem_cons, List.mem_singleton, List.not_mem_nil, or_false] at hc
    rcases hc with rfl | rfl <;> rfl
  ⟨h1, rfl,
    lifecycle_open_change_close
      (HandleDidOpen (NewServer sampleParser) (mkOpen "file:///b.up" 1 "x 1")).1
      (mkOpen "file:///a.up" 1 "name John")
      [mkChange "file:///a.up" 2 "name Jane", mkChange "file:///a.up" 3 "name !!!"]
      (mkClose "file:///a.up") h1 rfl⟩

/-- C2: when the parser accepts a text, the diagnostics of the document stored by
`HandleDidOpen` with that text, and by a successful `HandleDidChange` whose first
content change is that text, are empty, whatever the store held before. -/
theorem accepted_text_empty_diagnostics (s : Server P) (text : String) (parsed : P)
    (hok : s.parser text = Except.ok parsed) :
    (∀ (uri : DocumentURI) (lang : String) (version : Int),
        Option.map Document.Errors
          ((HandleDidOpen s { TextDocument :=
              { URI := uri, LanguageID := lang, Version := version, Text := text } }).1.documents
            uri) = some [])
    ∧ (∀ (uri : DocumentURI) (version : Int) (r : Option Range) (n : Nat)
        (rest : List TextDocumentContentChangeEvent),
        (HandleDidChange s
            { TextDocument := { URI := uri, Version := version }
              ContentChanges := { Range := r, RangeLength := n, Text := text } :: rest }).2 = none →
        Option.map Document.Errors
          ((HandleDidChange s
              { TextDocument := { URI := uri, Version := version }
                ContentChanges :=
                  { Range := r, RangeLength := n, Text := text } :: rest }).1.documents
            uri) = some []) := by
  refine ⟨fun uri lang version => ?_, fun uri version r n rest hsucc => ?_⟩
  · rw [HandleDidOpen_documents, parseDocument_ok s _ parsed hok]; rfl
  · obtain ⟨doc, hdoc⟩ := HandleDidChange_success s _ hsucc
    rw [HandleDidChange_documents s _ doc hdoc, parseDocument_ok s _ parsed hok]; rfl

/-- Witness of C2: `name John` is accepted; opening `file:///a.up` with it, and
changing `file:///a.up` to it from the rejected text `name !!!`, leave no
diagnostic. -/
theorem accepted_text_empty_diagnostics_witness :
    sampleParser "name John" = Except.ok "name John"
    ∧ Option.map Document.Errors
        ((HandleDidOpen (NewServer sampleParser)
            (mkOpen "file:///a.up" 1 "name !!!")).1.documents "file:///a.up")
        = some [parseErrorDiagnostic "unexpected token"]
    ∧ Option.map Document.Errors
        ((HandleDidOpen
            (HandleDidOpen (NewServer sampleParser) (mkOpen "file:///a.up" 1 "name !!!")).1
            (mkOpen "file:///a.up" 2 "name John")).1.documents "file:///a.up") = some []
    ∧ Option.map Document.Errors
        ((HandleDidChange
            (HandleDidOpen (NewServer sampleParser) (mkOpen "file:///a.up" 1 "name !!!")).1
            (mkChange "file:///a.up" 2 "name John")).1.documents "file:///a.up") = some [] :=
  ⟨rfl, by decide,
    (accepted_text_empty_diagnostics
      (HandleDidOpen (NewServer sampleParser) (mkOpen "file:///a.up" 1 "name !!!")).1
      "name John" "name John" rfl).1 "file:///a.up" "up" 2,
    (accepted_text_empty_diagnostics
      (HandleDidOpen (NewServer sampleParser) (mkOpen "file:///a.up" 1 "name !!!")).1
      "name John" "name John" rfl).2 "file:///a.up" 2 none 0 [] (by decide)⟩

/-- C3: when the parser rejects a text with an error, `HandleDidOpen` with that
text, and `HandleDidChange` on a URI in the store whose first content change is
that text, return no error and leave under the URI exactly one diagnostic:
severity Error, source `up-parser`, the error message of the parser, range
(0,0)-(0,100); no diagnostic the stored document held before remains. -/
theorem rejected_text_one_diagnostic (s : Server P) (text : String) (err : String)
    (herr : s.parser text = Except.error err) :
    (∀ (uri : DocumentURI) (lang : String) (version : Int),
        (HandleDidOpen s { TextDocument :=
            { URI := uri, LanguageID := lang, Version := version, Text := text } }).2 = none
        ∧ Option.map Document.Errors
          ((HandleDidOpen s { TextDocument :=
              { URI := uri, LanguageID := lang, Version := version, Text := text } }).1.documents
            uri)
          = some [{ Range := { Start := { Line := 0, Character := 0 }
                               End_ := { Line := 0, Character := 100 } }
                    Severity := DiagnosticSeverity.Error
                    Source := "up-parser"
                    Message := err }])
    ∧ (∀ (uri : DocumentURI) (version : Int) (r : Option Range) (n : Nat)
        (rest : List TextDocumentContentChangeEvent) (old : Document P),
        s.documents uri = some old →
        (HandleDidChange s
            { TextDocument := { URI := uri, Version := version }
              ContentChanges := { Range := r, RangeLength := n, Text := text } :: rest }).2 = none
        ∧ Option.map Document.Errors
          ((HandleDidChange s
              { TextDocument := { URI := uri, Version := version }
                ContentChanges :=
                  { Range := r, RangeLength := n, Text := text } :: rest }).1.documents
            uri)
          = some [{ Range := { Start := { Line := 0, Character := 0 }
                               End_ := { Line := 0, Character := 100 } }
                    Severity := DiagnosticSeverity.Error
                    Source := "up-parser"
                    Message := err }]) := by
  refine ⟨fun uri lang version => ⟨rfl, ?_⟩, fun uri version r n rest old hold => ⟨?_, ?_⟩⟩
  · rw [HandleDidOpen_documents, parseDocument_error s _ err herr]; rfl
  · rw [HandleDidChange_present s _ old hold]
  · rw [HandleDidChange_documents s _ old hold, parseDocument_error s _ err herr]; rfl

/-- Witness of C3: `name !!!` is rejected with `unexpected token`.  Changing to it
`file:///a.up`, opened with the accepted text `name John` and holding no
diagnostic, and changing to it `file:///c.up`, which holds two diagnostics with
another message, both succeed and leave the one diagnostic of `name !!!`. -/
theorem rejected_text_one_diagnostic_witness :
    sampleParser "name !!!" = Except.error "unexpected token"
    ∧ Option.map Document.Errors
        ((HandleDidOpen (NewServer sampleParser)
            (mkOpen "file:///a.up" 1 "name John")).1.documents "file:///a.up") = some []
    ∧ ((HandleDidChange
          (HandleDidOpen (NewServer sampleParser) (mkOpen "file:///a.up" 1 "name John")).1
          (mkChange "file:///a.up" 2 "name !!!")).2 = none
        ∧ Option.map Document.Errors
          ((HandleDidChange
              (HandleDidOpen (NewServer sampleParser) (mkOpen "file:///a.up" 1 "name John")).1
              (mkChange "file:///a.up" 2 "name !!!")).1.documents "file:///a.up")
          = some [{ Range := { Start := { Line := 0, Character := 0 }
                               End_ := { Line := 0, Character := 100 } }
                    Severity := DiagnosticSeverity.Error
                    Source := "up-parser"
                    Message := "unexpected token" }])
    ∧ ((HandleDidChange
          { NewServer sampleParser with
            documents := mapStore (fun _ => none) "file:///c.up"
              { URI := "file:///c.up", Version := 4, Content := "old text", Parsed := none
                Errors := [parseErrorDiagnostic "missing value",
                           parseErrorDiagnostic "missing value"] } }
          (mkChange "file:///c.up" 5 "name !!!")).2 = none
        ∧ Option.map Document.Errors
          ((HandleDidChange
              { NewServer sampleParser with
                documents := mapStore (fun _ => none) "file:///c.up"
                  { URI := "file:///c.up", Version := 4, Content := "old text", Parsed := none
                    Errors := [parseErrorDiagnostic "missing value",
                               parseErrorDiagnostic "missing value"] } }
              (mkChange "file:///c.up" 5 "name !!!")).1.documents "file:///c.up")
          = some [{ Range := { Start := { Line := 0, Character := 0 }
                               End_ := { Line := 0, Character := 100 } }
                    Severity := DiagnosticSeverity.Error
                    Source := "up-parser"
                    Message := "unexpected token" }]) :=
  ⟨rfl, by decide,
    (rejected_text_one_diagnostic
      (HandleDidOpen (NewServer sampleParser) (mkOpen "file:///a.up" 1 "name John")).1
      "name !!!" "unexpected token" rfl).2 "file:///a.up" 2 none 0 []
      { URI := "file:///a.up", Version := 1, Content := "name John"
        Parsed := some "name John", Errors := [] }
      (by decide),
    (rejected_text_one_diagnostic
      { NewServer sampleParser with
        documents := mapStore (fun _ => none) "file:///c.up"
          { URI := "file:///c.up", Version := 4, Content := "old text", Parsed := none
            Errors := [parseErrorDiagnostic "missing value",
                       parseErrorDiagnostic "missing value"] } }
      "name !!!" "unexpected token" rfl).2 "file:///c.up" 5 none 0 []
      { URI := "file:///c.up", Version := 4, Content := "old text", Parsed := none
        Errors := [parseErrorDiagnostic "missing value",
                   parseErrorDiagnostic "missing value"] }
      (by decide)⟩

/-- C4: `HandleDidChange` for a URI that is not in the store returns the error
`document not found: <uri>` and the server state it was given, unchanged. -/
theorem change_unknown_uri_not_found (s : Server P) (params : DidChangeTextDocumentParams)
    (h : s.documents params.TextDocument.URI = none) :
    HandleDidChange s params
      = (s, some ("document not found: " ++ params.TextDocument.URI)) :=
  HandleDidChange_absent s params h

/-- Witness of C4: a change of `file:///a.up` on a server that holds only
`file:///b.up`. -/
theorem change_unknown_uri_not_found_witness :
    (HandleDidOpen (NewServer sampleParser) (mkOpen "file:///b.up" 1 "x 1")).1.documents
        (mkChange "file:///a.up" 2 "name John").TextDocument.URI = none
    ∧ HandleDidChange
        (HandleDidOpen (NewServer sampleParser) (mkOpen "file:///b.up" 1 "x 1")).1
        (mkChange "file:///a.up" 2 "name John")
      = ((HandleDidOpen (NewServer sampleParser) (mkOpen "file:///b.up" 1 "x 1")).1,
          some ("document not found: " ++ (mkChange "file:///a.up" 2 "name John").TextDocument.URI)) :=
  ⟨by decide,
    change_unknown_uri_not_found
      (HandleDidOpen (NewServer sampleParser) (mkOpen "file:///b.up" 1 "x 1")).1
      (mkChange "file:///a.up" 2 "name John") (by decide)⟩

/-- C5: `HandleHover` never returns an error; its hover is null exactly when the
URI is not in the store, and for a URI in the store it is the fixed Markdown
payload, the same for every position and every stored document. -/
theorem hover_null_iff_unknown (s : Server P) (params : HoverParams) :
    (HandleHover s params).2.2 = none
    ∧ ((HandleHover s params).2.1 = none ↔ s.documents params.TextDocument.URI = none)
    ∧ (HandleHover s params).2.1
        = if (s.documents params.TextDocument.URI).isSome then
            some { Contents :=
                     { Kind := MarkupKind.Markdown
                       Value := "**UP Document**\n\nHover information for UP files." }
                   Range := none }
          else none := by
  cases h : s.documents params.TextDocument.URI <;> simp [HandleHover, getHover, h]

/-- C6: `HandleDidClose` never returns an error, leaves the server state
unchanged when the URI is not in the store, and closing twice gives the state
of closing once. -/
theorem close_idempotent (s : Server P) (params : DidCloseTextDocumentParams) :
    (HandleDidClose s params).2 = none
    ∧ (s.documents params.TextDocument.URI = none → (HandleDidClose s params).1 = s)
    ∧ (HandleDidClose (HandleDidClose s params).1 params).1 = (HandleDidClose s params).1 := by
  refine ⟨rfl, HandleDidClose_absent s params, ?_⟩
  exact HandleDidClose_absent _ params (mapDelete_same _ _)

/-- Witness of C6: closing `file:///a.up` on a server that holds only
`file:///b.up` returns that server. -/
theorem close_idempotent_witness :
    (HandleDidOpen (NewServer sampleParser) (mkOpen "file:///b.up" 1 "x 1")).1.documents
        (mkClose "file:///a.up").TextDocument.URI = none
    ∧ (HandleDidClose
          (HandleDidOpen (NewServer sampleParser) (mkOpen "file:///b.up" 1 "x 1")).1
          (mkClose "file:///a.up")).1
        = (HandleDidOpen (NewServer sampleParser) (mkOpen "file:///b.up" 1 "x 1")).1 :=
  ⟨by decide,
    (close_idempotent
      (HandleDidOpen (NewServer sampleParser) (mkOpen "file:///b.up" 1 "x 1")).1
      (mkClose "file:///a.up")).2.1 (by decide)⟩

/-- C7: `HandleDidOpen` returns no error and leaves under the URI a document with
that URI, the given version and text, and the parse result and diagnostics of
parsing the given text alone; the entry does not depend on the store before. -/
theorem open_overwrites (s : Server P) (params : DidOpenTextDocumentParams) :
    (HandleDidOpen s params).2 = none
    ∧ (HandleDidOpen s params).1.documents params.TextDocument.URI
        = some
            { URI := params.TextDocument.URI
              Version := params.TextDocument.Version
              Content := params.TextDocument.Text
              Parsed :=
                match s.parser params.TextDocument.Text with
                | Except.ok parsed => some parsed
                | Except.error _ => none
              Errors :=
                match s.parser params.TextDocument.Text with
                | Except.ok _ => []
                | Except.error err =>
                  [{ Range := { Start := { Line := 0, Character := 0 }
                                End_ := { Line := 0, Character := 100 } }
                     Severity := DiagnosticSeverity.Error
                     Source := "up-parser"
                     Message := err }] }
    ∧ (∀ m : DocumentURI → Option (Document P),
        (HandleDidOpen { s with documents := m } params).1.documents params.TextDocument.URI
          = (HandleDidOpen s params).1.documents params.TextDocument.URI) := by
  refine ⟨rfl, ?_, fun m => ?_⟩
  · rw [HandleDidOpen_documents]
    cases h : s.parser params.TextDocument.Text with
    | ok parsed => exact (congrArg some (parseDocument_ok s _ parsed h)).trans rfl
    | error err => exact (congrArg some (parseDocument_error s _ err h)).trans rfl
  · rw [HandleDidOpen_documents, HandleDidOpen_documents]
    rfl

/-- C8: a `HandleDidChange` on a URI in the store leaves under it the text of the
first content change together with the version of the notification when there
is a content change, and the old content together with the old version when
there is none. -/
theorem change_content_version_together (s : Server P)
    (params : DidChangeTextDocumentParams) (old : Document P)
    (h : s.documents params.TextDocument.URI = some old) :
    Option.map (fun d => (d.Content, d.Version))
        ((HandleDidChange s params).1.documents params.TextDocument.URI)
      = some (match params.ContentChanges with
              | c :: _ => (c.Text, params.TextDocument.Version)
              | [] => (old.Content, old.Version)) := by
  rw [HandleDidChange_documents s params old h]
  simp only [Option.map_some', parseDocument_Content, parseDocument_Version]
  cases params.ContentChanges <;> rfl

/-- Witness of C8: on `file:///a.up` opened at version 1 with `name John`, a
change at version 5 with two content changes stores the first text and version
5, and a change at version 5 with no content change stores `name John` and
version 1. -/
theorem change_content_version_together_witness :
    Option.map (fun d => (d.Content, d.Version))
        ((HandleDidChange
            (HandleDidOpen (NewServer sampleParser) (mkOpen "file:///a.up" 1 "name John")).1
            { TextDocument := { URI := "file:///a.up", Version := 5 }
              ContentChanges := [{ Range := none, RangeLength := 0, Text := "name Jane" },
                                 { Range := none, RangeLength := 0, Text := "name Joe" }] }
          ).1.documents "file:///a.up")
      = some ("name Jane", 5)
    ∧ Option.map (fun d => (d.Content, d.Version))
        ((HandleDidChange
            (HandleDidOpen (NewServer sampleParser) (mkOpen "file:///a.up" 1 "name John")).1
            (mkEmptyChange "file:///a.up" 5)).1.documents "file:///a.up")
      = some ("name John", 1) :=
  ⟨change_content_version_together
      (HandleDidOpen (NewServer sampleParser) (mkOpen "file:///a.up" 1 "name John")).1
      { TextDocument := { URI := "file:///a.up", Version := 5 }
        ContentChanges := [{ Range := none, RangeLength := 0, Text := "name Jane" },
                           { Range := none, RangeLength := 0, Text := "name Joe" }] }
      { URI := "file:///a.up", Version := 1, Content := "name John"
        Parsed := some "name John", Errors := [] }
      (by decide),
    change_content_version_together
      (HandleDidOpen (NewServer sampleParser) (mkOpen "file:///a.up" 1 "name John")).1
      (mkEmptyChange "file:///a.up" 5)
      { URI := "file:///a.up", Version := 1, Content := "name John"
        Parsed := some "name John", Errors := [] }
      (by decide)⟩

/-- C9 (counterexample): on `file:///a.up` opened at version 1, a `didChange`
carrying version 2 and no content change succeeds and the stored version is
still 1, not the version 2 the notification carried. -/
theorem stored_version_latest_counterexample :
    (HandleDidChange
        (HandleDidOpen (NewServer sampleParser) (mkOpen "file:///a.up" 1 "name John")).1
        (mkEmptyChange "file:///a.up" 2)).2 = none
    ∧ Option.map Document.Version
        ((HandleDidChange
            (HandleDidOpen (NewServer sampleParser) (mkOpen "file:///a.up" 1 "name John")).1
            (mkEmptyChange "file:///a.up" 2)).1.documents "file:///a.up") = some 1
    ∧ ¬ Option.map Document.Version
        ((HandleDidChange
            (HandleDidOpen (NewServer sampleParser) (mkOpen "file:///a.up" 1 "name John")).1
            (mkEmptyChange "file:///a.up" 2)).1.documents "file:///a.up")
        = some (mkEmptyChange "file:///a.up" 2).TextDocument.Version := by
  decide

/-- C9 (amended): after `HandleDidOpen` the stored version is the version of the
notification; after a successful `HandleDidChange` with at least one content
change the stored version is the version of the notification; a
`HandleDidChange` with no content change on a URI in the store leaves the stored
version as it was. -/
theorem stored_version_latest_on_content_change (s : Server P) :
    (∀ o : DidOpenTextDocumentParams,
        (HandleDidOpen s o).2 = none
        ∧ Option.map Document.Version
            ((HandleDidOpen s o).1.documents o.TextDocument.URI)
          = some o.TextDocument.Version)
    ∧ (∀ ch : DidChangeTextDocumentParams,
        ch.ContentChanges ≠ [] →
        (HandleDidChange s ch).2 = none →
        Option.map Document.Version
            ((HandleDidChange s ch).1.documents ch.TextDocument.URI)
          = some ch.TextDocument.Version)
    ∧ (∀ (ch : DidChangeTextDocumentParams) (old : Document P),
        ch.ContentChanges = [] →
        s.documents ch.TextDocument.URI = some old →
        Option.map Document.Version
            ((HandleDidChange s ch).1.documents ch.TextDocument.URI)
          = some old.Version) := by
  refine ⟨fun o => ⟨rfl, ?_⟩, fun ch hne hsucc => ?_, fun ch old hnil hold => ?_⟩
  · rw [HandleDidOpen_documents]
    simp only [Option.map_some', parseDocument_Version]
  · obtain ⟨doc, hdoc⟩ := HandleDidChange_success s ch hsucc
    rw [HandleDidChange_documents s ch doc hdoc]
    simp only [Option.map_some', parseDocument_Version]
    cases hcs : ch.ContentChanges with
    | nil => exact absurd hcs hne
    | cons c rest => rfl
  · rw [HandleDidChange_documents s ch old hold]
    simp only [Option.map_some', parseDocument_Version, hnil]

/-- Witness of C9 (amended): on `file:///a.up` opened at version 1, a change at
version 7 with a content change stores version 7, and a change at version 7
with no content change stores version 1. -/
theorem stored_version_latest_on_content_change_witness :
    (mkChange "file:///a.up" 7 "name Jane").ContentChanges ≠ []
    ∧ Option.map Document.Version
        ((HandleDidOpen (NewServer sampleParser)
            (mkOpen "file:///a.up" 1 "name John")).1.documents "file:///a.up") = some 1
    ∧ Option.map Document.Version
        ((HandleDidChange
            (HandleDidOpen (NewServer sampleParser) (mkOpen "file:///a.up" 1 "name John")).1
            (mkChange "file:///a.up" 7 "name Jane")).1.documents "file:///a.up") = some 7
    ∧ Option.map Document.Version
        ((HandleDidChange
            (HandleDidOpen (NewServer sampleParser) (mkOpen "file:///a.up" 1 "name John")).1
            (mkEmptyChange "file:///a.up" 7)).1.documents "file:///a.up") = some 1 :=
  ⟨by decide,
    ((stored_version_latest_on_content_change (NewServer sampleParser)).1
      (mkOpen "file:///a.up" 1 "name John")).2,
    (stored_version_latest_on_content_change
      (HandleDidOpen (NewServer sampleParser) (mkOpen "file:///a.up" 1 "name John")).1).2.1
      (mkChange "file:///a.up" 7 "name Jane") (by decide) (by decide),
    (stored_version_latest_on_content_change
      (HandleDidOpen (NewServer sampleParser) (mkOpen "file:///a.up" 1 "name John")).1).2.2
      (mkEmptyChange "file:///a.up" 7)
      { URI := "file:///a.up", Version := 1, Content := "name John"
        Parsed := some "name John", Errors := [] }
      rfl (by decide)⟩

/-- C10 (the code at the failing input): `file:///a.up` is opened with the
accepted text `name John` and then changed to the rejected text `name !!!`; the
stored document has the new content and version and one diagnostic, and its
`Parsed` field is still the parsed representation of `name John`. -/
theorem parsed_stale_after_rejected_change :
    sampleParser "name John" = Except.ok "name John"
    ∧ sampleParser "name !!!" = Except.error "unexpected token"
    ∧ (HandleDidChange
          (HandleDidOpen (NewServer sampleParser) (mkOpen "file:///a.up" 1 "name John")).1
          (mkChange "file:///a.up" 2 "name !!!")).2 = none
    ∧ (HandleDidChange
          (HandleDidOpen (NewServer sampleParser) (mkOpen "file:///a.up" 1 "name John")).1
          (mkChange "file:///a.up" 2 "name !!!")).1.documents "file:///a.up"
        = some
            { URI := "file:///a.up"
              Version := 2
              Content := "name !!!"
              Parsed := some "name John"
              Errors :=
                [{ Range := { Start := { Line := 0, Character := 0 }
                              End_ := { Line := 0, Character := 100 } }
                   Severity := DiagnosticSeverity.Error
                   Source := "up-parser"
                   Message := "unexpected token" }] } :=
  ⟨rfl, rfl, by decide, by decide⟩

/-- C11: whenever `HandleInitialize` returns, on a server built by `NewServer`
with any document store, the error is `nil`, the capabilities are the fixed set
of `NewServer` (open/close and full sync, hover, formatting, symbols and
definition enabled), the completion trigger characters are `!`, `@`, `.` as a
set, and every other request that returns gives the same result. -/
theorem initialize_fixed_capabilities (parser : String → Except String P)
    (m : DocumentURI → Option (Document P)) (params : InitializeParams)
    (r : InitializeResult × Option String)
    (h : (HandleInitialize { NewServer parser with documents := m } params).2 = Except.ok r) :
    r.2 = none
    ∧ r.1.Capabilities
        = { TextDocumentSync := { OpenClose := true, Change := TextDocumentSyncKind.Full }
            CompletionProvider := some { TriggerCharacters := ["!", "@", "."] }
            HoverProvider := true
            DocumentFormattingProvider := true
            DocumentSymbolProvider := true
            DefinitionProvider := true }
    ∧ (∃ cp, r.1.Capabilities.CompletionProvider = some cp
        ∧ ∀ c, c ∈ cp.TriggerCharacters ↔ (c = "!" ∨ c = "@" ∨ c = "."))
    ∧ (∀ (params2 : InitializeParams) (r2 : InitializeResult × Option String),
        (HandleInitialize { NewServer parser with documents := m } params2).2 = Except.ok r2 →
        r2 = r) := by
  have key : ∀ (q : InitializeParams) (x : InitializeResult × Option String),
      (HandleInitialize { NewServer parser with documents := m } q).2 = Except.ok x →
      x = ({ Capabilities := (NewServer parser).capabilities
             ServerInfo := some { Name := "up-language-server", Version := "1.0.0" } },
           none) := by
    intro q x hq
    unfold HandleInitialize at hq
    cases hc : q.ClientInfo with
    | none => rw [hc] at hq; cases hq
    | some ci => rw [hc] at hq; cases hq; rfl
  have hr := key params r h
  subst hr
  refine ⟨rfl, rfl, ⟨{ TriggerCharacters := ["!", "@", "."] }, rfl, ?_⟩, ?_⟩
  · intro c
    simp
  · intro params2 r2 h2
    exact key params2 r2 h2

/-- Witness of C11: an initialize request with client info, on a server that
holds `file:///b.up`. -/
theorem initialize_fixed_capabilities_witness :
    (HandleInitialize
        { NewServer sampleParser with
          documents :=
            (HandleDidOpen (NewServer sampleParser) (mkOpen "file:///b.up" 1 "x 1")).1.documents }
        { ProcessID := 7, ClientInfo := some { Name := "editor", Version := "0.1" }
          Locale := "en", RootURI := "file:///" }).2
      = Except.ok
          ({ Capabilities := (NewServer sampleParser).capabilities
             ServerInfo := some { Name := "up-language-server", Version := "1.0.0" } }, none)
    ∧ ({ Capabilities := (NewServer sampleParser).capabilities
         ServerInfo := some { Name := "up-language-server", Version := "1.0.0" } }
        : InitializeResult).Capabilities
      = { TextDocumentSync := { OpenClose := true, Change := TextDocumentSyncKind.Full }
          CompletionProvider := some { TriggerCharacters := ["!", "@", "."] }
          HoverProvider := true
          DocumentFormattingProvider := true
          DocumentSymbolProvider := true
          DefinitionProvider := true } :=
  ⟨rfl,
    (initialize_fixed_capabilities sampleParser
      (HandleDidOpen (NewServer sampleParser) (mkOpen "file:///b.up" 1 "x 1")).1.documents
      { ProcessID := 7, ClientInfo := some { Name := "editor", Version := "0.1" }
        Locale := "en", RootURI := "file:///" }
      ({ Capabilities := (NewServer sampleParser).capabilities
         ServerInfo := some { Name := "up-language-server", Version := "1.0.0" } }, none)
      rfl).2.1⟩

/-- C12: for a URI in the store `HandleCompletion` returns, with no error, a
complete list of the same ten items in the same order, whatever the position
and the stored document. -/
theorem completion_static_catalog (s : Server P) (params : CompletionParams)
    (doc : Document P) (h : s.documents params.TextDocument.URI = some doc) :
    (HandleCompletion s params).2
      = (some
          { IsIncomplete := false
            Items :=
              [ { Label := "!int", Kind := CompletionItemKind.Keyword
                  Detail := "Integer type annotation" },
                { Label := "!bool", Kind := CompletionItemKind.Keyword
                  Detail := "Boolean type annotation" },
                { Label := "!string", Kind := CompletionItemKind.Keyword
                  Detail := "String type annotation" },
                { Label := "!dur", Kind := CompletionItemKind.Keyword
                  Detail := "Duration type annotation" },
                { Label := "!ts", Kind := CompletionItemKind.Keyword
                  Detail := "Timestamp type annotation" },
                { Label := "!uuid", Kind := CompletionItemKind.Keyword
                  Detail := "UUID type annotation" },
                { Label := "@string.", Kind := CompletionItemKind.Module
                  Detail := "String manipulation functions" },
                { Label := "@math.", Kind := CompletionItemKind.Module
                  Detail := "Math operations" },
                { Label := "@time.", Kind := CompletionItemKind.Module
                  Detail := "Time and date functions" },
                { Label := "@random.", Kind := CompletionItemKind.Module
                  Detail := "Random generation" } ] },
         none) := by
  simp only [HandleCompletion, h]
  rfl

/-- Witness of C12: a completion request on `file:///a.up`, opened with
`name John`, at line 0, character 4 gives the ten labels in order. -/
theorem completion_static_catalog_witness :
    (HandleDidOpen (NewServer sampleParser) (mkOpen "file:///a.up" 1 "name John")).1.documents
        (mkCompletion "file:///a.up" 0 4).TextDocument.URI
      = some { URI := "file:///a.up", Version := 1, Content := "name John"
               Parsed := some "name John", Errors := [] }
    ∧ Option.map (fun l => l.Items.map CompletionItem.Label)
        (HandleCompletion
          (HandleDidOpen (NewServer sampleParser) (mkOpen "file:///a.up" 1 "name John")).1
          (mkCompletion "file:///a.up" 0 4)).2.1
      = some ["!int", "!bool", "!string", "!dur", "!ts", "!uuid",
              "@string.", "@math.", "@time.", "@random."] :=
  ⟨by decide,
    congrArg (fun r => Option.map (fun l => l.Items.map CompletionItem.Label) r.1)
      (completion_static_catalog
        (HandleDidOpen (NewServer sampleParser) (mkOpen "file:///a.up" 1 "name John")).1
        (mkCompletion "file:///a.up" 0 4)
        { URI := "file:///a.up", Version := 1, Content := "name John"
          Parsed := some "name John", Errors := [] }
        (by decide))⟩

/-- C13 (counterexample): on a new server, `HandleCompletion` for `file:///a.up`
returns no list and the error `document not found: file:///a.up`, while
`HandleHover` for the same URI returns a null hover and no error. -/
theorem completion_unknown_uri_counterexample :
    (HandleCompletion (NewServer sampleParser) (mkCompletion "file:///a.up" 0 0)).2
      = (none, some "document not found: file:///a.up")
    ∧ ¬ (HandleCompletion (NewServer sampleParser) (mkCompletion "file:///a.up" 0 0)).2.2 = none
    ∧ (HandleHover (NewServer sampleParser) (mkHover "file:///a.up" 0 0)).2 = (none, none) := by
  decide

/-- C13 (amended): `HandleCompletion` for a URI that is not in the store returns
no completion list and the error `document not found: <uri>`, with the server
state unchanged. -/
theorem completion_unknown_uri_not_found (s : Server P) (params : CompletionParams)
    (h : s.documents params.TextDocument.URI = none) :
    HandleCompletion s params
      = (s, none, some ("document not found: " ++ params.TextDocument.URI)) :=
  HandleCompletion_absent s params h

/-- Witness of C13 (amended): a completion request for `file:///a.up` on a
server that holds only `file:///b.up`. -/
theorem completion_unknown_uri_not_found_witness :
    (HandleDidOpen (NewServer sampleParser) (mkOpen "file:///b.up" 1 "x 1")).1.documents
        (mkCompletion "file:///a.up" 2 3).TextDocument.URI = none
    ∧ HandleCompletion
        (HandleDidOpen (NewServer sampleParser) (mkOpen "file:///b.up" 1 "x 1")).1
        (mkCompletion "file:///a.up" 2 3)
      = ((HandleDidOpen (NewServer sampleParser) (mkOpen "file:///b.up" 1 "x 1")).1, none,
          some ("document not found: " ++ (mkCompletion "file:///a.up" 2 3).TextDocument.URI)) :=
  ⟨by decide,
    completion_unknown_uri_not_found
      (HandleDidOpen (NewServer sampleParser) (mkOpen "file:///b.up" 1 "x 1")).1
      (mkCompletion "file:///a.up" 2 3) (by decide)⟩

/-- C14 (counterexample): the parser rejects `name John\nage !!!` at line 1,
column 4; the diagnostic stored by `HandleDidOpen` has the range (0,0)-(0,100),
which does not span the position (1,4). -/
theorem diagnostic_range_counterexample :
    samplePositionParser "name John\nage !!!"
      = Except.error { message := "unexpected token", line := 1, column := 4 }
    ∧ Option.map (fun d => d.Errors.map (fun x => (x.Range, rangeSpans x.Range ⟨1, 4⟩)))
        ((HandleDidOpen (NewServer (asGoParser samplePositionParser))
            (mkOpen "file:///bad.up" 1 "name John\nage !!!")).1.documents "file:///bad.up")
      = some [({ Start := { Line := 0, Character := 0 }
                 End_ := { Line := 0, Character := 100 } }, false)] :=
  ⟨rfl, by decide⟩

/-- C14 (amended): when the parser rejects a text with an error reported at
(line, column), the one diagnostic stored by `HandleDidOpen` has the range
(0,0)-(0,100) whatever the position is, and that range spans the reported
position exactly when the line is 0 and the column is at most 100. -/
theorem diagnostic_range_fixed (parse : String → Except SyntaxError P) (s : Server P)
    (hs : s.parser = asGoParser parse) (text : String) (e : SyntaxError)
    (herr : parse text = Except.error e)
    (uri : DocumentURI) (lang : String) (version : Int) :
    Option.map
        (fun d => d.Errors.map
          (fun x => (x.Range, x.Message, rangeSpans x.Range ⟨e.line, e.column⟩)))
        ((HandleDidOpen s { TextDocument :=
            { URI := uri, LanguageID := lang, Version := version, Text := text } }).1.documents
          uri)
      = some [({ Start := { Line := 0, Character := 0 }
                 End_ := { Line := 0, Character := 100 } },
               e.message,
               decide (e.line = 0 ∧ e.column ≤ 100))] := by
  have hp : s.parser text = Except.error e.message := by
    rw [hs]
    simp [asGoParser, herr]
  rw [HandleDidOpen_documents, parseDocument_error s _ e.message hp]
  simp only [Option.map_some', List.map_cons, List.map_nil, parseErrorDiagnostic, rangeSpans]
  congr 3
  rcases e with ⟨msg, line, column⟩
  cases line with
  | zero => simp
  | succ n => simp

/-- Witness of C14 (amended): the error of `name !!!`, reported at line 0, column
5, gets the range (0,0)-(0,100), which spans (0,5). -/
theorem diagnostic_range_fixed_witness :
    samplePositionParser "name !!!"
      = Except.error { message := "unexpected token", line := 0, column := 5 }
    ∧ Option.map
        (fun d => d.Errors.map
          (fun x => (x.Range, x.Message, rangeSpans x.Range ⟨0, 5⟩)))
        ((HandleDidOpen (NewServer (asGoParser samplePositionParser))
            { TextDocument :=
                { URI := "file:///bad.up", LanguageID := "up", Version := 1
                  Text := "name !!!" } }).1.documents "file:///bad.up")
      = some [({ Start := { Line := 0, Character := 0 }
                 End_ := { Line := 0, Character := 100 } },
               "unexpected token",
               true)] :=
  ⟨rfl,
    diagnostic_range_fixed samplePositionParser (NewServer (asGoParser samplePositionParser))
      rfl "name !!!" { message := "unexpected token", line := 0, column := 5 } rfl
      "file:///bad.up" "up" 1⟩

/-- C15 (the code at the failing input): an initialize request without client
info makes `HandleInitialize` panic on the dereference of the `nil`
`ClientInfo`; it returns neither a result nor an error. -/
theorem initialize_faults_without_client_info :
    (HandleInitialize (NewServer sampleParser)
        { ProcessID := 7, ClientInfo := none, Locale := "en", RootURI := "file:///" }).2
      = Except.error Panic.nilPointerDereference :=
  rfl

/-- C16: `HandleDidOpen`, `HandleDidChange` and `HandleDidClose` for a URI leave
the entry of every other URI as it was, and `HandleInitialize`,
`HandleCompletion` and `HandleHover` return the server state they were given. -/
theorem handlers_touch_only_their_entry (s : Server P) :
    (∀ (o : DidOpenTextDocumentParams) (u : DocumentURI), u ≠ o.TextDocument.URI →
        (HandleDidOpen s o).1.documents u = s.documents u)
    ∧ (∀ (ch : DidChangeTextDocumentParams) (u : DocumentURI), u ≠ ch.TextDocument.URI →
        (HandleDidChange s ch).1.documents u = s.documents u)
    ∧ (∀ (cl : DidCloseTextDocumentParams) (u : DocumentURI), u ≠ cl.TextDocument.URI →
        (HandleDidClose s cl).1.documents u = s.documents u)
    ∧ (∀ ini : InitializeParams, (HandleInitialize s ini).1 = s)
    ∧ (∀ cp : CompletionParams, (HandleCompletion s cp).1 = s)
    ∧ (∀ hp : HoverParams, (HandleHover s hp).1 = s) := by
  refine ⟨fun o u hu => ?_, fun ch u hu => ?_, fun cl u hu => ?_, fun ini => ?_,
    fun cp => ?_, fun hp => ?_⟩
  · simp only [HandleDidOpen]
    exact mapStore_other _ _ _ _ hu
  · cases hdoc : s.documents ch.TextDocument.URI with
    | none => rw [HandleDidChange_absent s ch hdoc]
    | some doc =>
      rw [HandleDidChange_present s ch doc hdoc]
      exact mapStore_other _ _ _ _ hu
  · simp only [HandleDidClose]
    exact mapDelete_other _ _ _ hu
  · unfold HandleInitialize
    cases ini.ClientInfo <;> rfl
  · unfold HandleCompletion
    cases hdoc : s.documents cp.TextDocument.URI <;> simp [hdoc]
  · unfold HandleHover
    cases hdoc : s.documents hp.TextDocument.URI <;> simp [hdoc]

/-- Witness of C16: on a server that holds `file:///b.up`, an open, a change and
a close of `file:///a.up` leave the entry of `file:///b.up` as it was. -/
theorem handlers_touch_only_their_entry_witness :
    ("file:///b.up" : DocumentURI) ≠ (mkOpen "file:///a.up" 1 "name !!!").TextDocument.URI
    ∧ (HandleDidOpen
          (HandleDidOpen (NewServer sampleParser) (mkOpen "file:///b.up" 1 "x 1")).1
          (mkOpen "file:///a.up" 1 "name !!!")).1.documents "file:///b.up"
        = (HandleDidOpen (NewServer sampleParser)
            (mkOpen "file:///b.up" 1 "x 1")).1.documents "file:///b.up"
    ∧ (HandleDidChange
          (HandleDidOpen
            (HandleDidOpen (NewServer sampleParser) (mkOpen "file:///b.up" 1 "x 1")).1
            (mkOpen "file:///a.up" 1 "name !!!")).1
          (mkChange "file:///a.up" 2 "name John")).1.documents "file:///b.up"
        = (HandleDidOpen
            (HandleDidOpen (NewServer sampleParser) (mkOpen "file:///b.up" 1 "x 1")).1
            (mkOpen "file:///a.up" 1 "name !!!")).1.documents "file:///b.up"
    ∧ (HandleDidClose
          (HandleDidOpen
            (HandleDidOpen (NewServer sampleParser) (mkOpen "file:///b.up" 1 "x 1")).1
            (mkOpen "file:///a.up" 1 "name !!!")).1
          (mkClose "file:///a.up")).1.documents "file:///b.up"
        = (HandleDidOpen
            (HandleDidOpen (NewServer sampleParser) (mkOpen "file:///b.up" 1 "x 1")).1
            (mkOpen "file:///a.up" 1 "name !!!")).1.documents "file:///b.up" :=
  ⟨by decide,
    (handlers_touch_only_their_entry
      (HandleDidOpen (NewServer sampleParser) (mkOpen "file:///b.up" 1 "x 1")).1).1
      (mkOpen "file:///a.up" 1 "name !!!") "file:///b.up" (by decide),
    (handlers_touch_only_their_entry
      (HandleDidOpen
        (HandleDidOpen (NewServer sampleParser) (mkOpen "file:///b.up" 1 "x 1")).1
        (mkOpen "file:///a.up" 1 "name !!!")).1).2.1
      (mkChange "file:///a.up" 2 "name John") "file:///b.up" (by decide),
    (handlers_touch_only_their_entry
      (HandleDidOpen
        (HandleDidOpen (NewServer sampleParser) (mkOpen "file:///b.up" 1 "x 1")).1
        (mkOpen "file:///a.up" 1 "name !!!")).1).2.2.1
      (mkClose "file:///a.up") "file:///b.up" (by decide)⟩

end UpLsp

namespace UpRepl

theorem joinLines_snoc (first : String) (rest : List String) (l : String) :
    joinLines first (rest ++ [l]) = joinLines first rest ++ "\n" ++ l := by
  simp [joinLines, List.foldl_append]

theorem closesBlock_eq (line : String) (h : closesBlock line = true) :
    line = "\x7d" ∨ line = "]" := by
  simpa [closesBlock] using h

theorem opensBlock_not_closes (line : String) (h : opensBlock line = true) :
    closesBlock line = false := by
  cases hc : closesBlock line with
  | false => rfl
  | true =>
    rcases closesBlock_eq line hc with rfl | rfl
    · exact absurd h (by decide)
    · exact absurd h (by decide)

theorem empty_append (line : String) : "" ++ line = line := by
  apply String.ext
  simp

theorem handleCommand_cases (cmd : String) (buffer : String) (multiline : Bool) :
    (handleCommand cmd buffer multiline).1 = buffer
        ∧ (handleCommand cmd buffer multiline).2.1 = multiline
    ∨ (handleCommand cmd buffer multiline).1 = ""
        ∧ (handleCommand cmd buffer multiline).2.1 = false := by
  unfold handleCommand
  split
  · exact Or.inl ⟨rfl, rfl⟩
  · split
    · exact Or.inl ⟨rfl, rfl⟩
    · split
      · exact Or.inr ⟨rfl, rfl⟩
      · exact Or.inl ⟨rfl, rfl⟩

theorem loopBody_command (st : ReplState) (rawLine : String)
    (hcmd : HasPrefix (TrimSpace rawLine) "." = true) :
    (loopBody st rawLine).1
      = { st with
          buffer := (handleCommand (TrimSpace rawLine) st.buffer st.multiline).1
          multiline := (handleCommand (TrimSpace rawLine) st.buffer st.multiline).2.1 } := by
  simp [loopBody, hcmd]

theorem loopBody_opens (st : ReplState) (rawLine : String)
    (hcmd : HasPrefix (TrimSpace rawLine) "." = false)
    (hopen : opensBlock (TrimSpace rawLine) = true) :
    (loopBody st rawLine).1
      = { st with
          buffer := (if st.multiline then st.buffer ++ "\n" else st.buffer) ++ TrimSpace rawLine
          multiline := true } := by
  unfold opensBlock at hopen
  simp [loopBody, hcmd, hopen]

theorem loopBody_closes (st : ReplState) (rawLine : String)
    (hcmd : HasPrefix (TrimSpace rawLine) "." = false)
    (hopen : opensBlock (TrimSpace rawLine) = false)
    (hclose : closesBlock (TrimSpace rawLine) = true) :
    (loopBody st rawLine).1
      = { buffer := ""
          multiline := false
          evaluated :=
            if (if st.multiline then st.buffer ++ "\n" else st.buffer) ++ TrimSpace rawLine != ""
            then st.evaluated
              ++ [(if st.multiline then st.buffer ++ "\n" else st.buffer) ++ TrimSpace rawLine]
            else st.evaluated } := by
  unfold opensBlock at hopen
  unfold closesBlock at hclose
  simp [loopBody, hcmd, hopen, hclose]

theorem loopBody_plain_single (st : ReplState) (rawLine : String)
    (hcmd : HasPrefix (TrimSpace rawLine) "." = false)
    (hopen : opensBlock (TrimSpace rawLine) = false)
    (hclose : closesBlock (TrimSpace rawLine) = false)
    (hmul : st.multiline = false) :
    (loopBody st rawLine).1
      = { buffer := ""
          multiline := false
          evaluated :=
            if st.buffer ++ TrimSpace rawLine != ""
            then st.evaluated ++ [st.buffer ++ TrimSpace rawLine]
            else st.evaluated } := by
  unfold opensBlock at hopen
  unfold closesBlock at hclose
  simp [loopBody, hcmd, hopen, hclose, hmul]

theorem loopBody_plain_multi (st : ReplState) (rawLine : String)
    (hcmd : HasPrefix (TrimSpace rawLine) "." = false)
    (hopen : opensBlock (TrimSpace rawLine) = false)
    (hclose : closesBlock (TrimSpace rawLine) = false)
    (hmul : st.multiline = true) :
    (loopBody st rawLine).1
      = { buffer := st.buffer ++ "\n" ++ TrimSpace rawLine
          multiline := true
          evaluated := st.evaluated } := by
  unfold opensBlock at hopen
  unfold closesBlock at hclose
  simp [loopBody, hcmd, hopen, hclose, hmul]

theorem mem_evaluated (input buf : String) (ev : List String)
    (h : input ∈ (if (buf != "") = true then ev ++ [buf] else ev)) :
    input ∈ ev ∨ (input = buf ∧ buf ≠ "") := by
  by_cases hne : (buf != "") = true
  · rw [if_pos hne] at h
    rcases List.mem_append.mp h with h | h
    · exact Or.inl h
    · exact Or.inr ⟨List.mem_singleton.mp h, by simpa using hne⟩
  · rw [if_neg hne] at h
    exact Or.inl h

theorem TrimSpace_noNewline (text : String) (h : noNewline text) :
    noNewline (TrimSpace text) := by
  intro hmem
  apply h
  have h1 : '\n' ∈ (text.data.dropWhile isSpace).reverse.dropWhile isSpace :=
    List.mem_reverse.mp hmem
  have h2 : '\n' ∈ (text.data.dropWhile isSpace).reverse :=
    List.dropWhile_subset isSpace h1
  exact List.dropWhile_subset isSpace (List.mem_reverse.mp h2)

theorem closesBlock_noNewline (line : String) (h : closesBlock line = true) :
    noNewline line := by
  rcases closesBlock_eq line h with rfl | rfl <;> decide

theorem splitLines_append (a : List Char) (h : '\n' ∉ a) :
    ∀ (rest cur : List Char), splitLines (a ++ rest) cur = splitLines rest (a.reverse ++ cur) := by
  induction a with
  | nil => intro rest cur; rfl
  | cons c cs ih =>
    intro rest cur
    have hc : c ≠ '\n' := fun hc => h (hc ▸ List.mem_cons_self c cs)
    have hcs : '\n' ∉ cs := fun hm => h (List.mem_cons_of_mem c hm)
    rw [List.cons_append, splitLines, if_neg hc, ih hcs rest (c :: cur)]
    simp

theorem splitLines_lines (rest : List String) (hrest : ∀ l ∈ rest, noNewline l) :
    ∀ (a cur : List Char), '\n' ∉ a →
      splitLines (a ++ rest.flatMap (fun l => '\n' :: l.data)) cur
        = ⟨(a.reverse ++ cur).reverse⟩ :: rest := by
  induction rest with
  | nil =>
    intro a cur ha
    have := splitLines_append a ha [] cur
    simpa [splitLines] using this
  | cons l rest ih =>
    intro a cur ha
    have hl : noNewline l := hrest l (List.mem_cons_self l rest)
    have hr : ∀ x ∈ rest, noNewline x := fun x hx => hrest x (List.mem_cons_of_mem l hx)
    rw [List.flatMap_cons, splitLines_append a ha, List.cons_append, splitLines, if_pos rfl,
      ih hr l.data [] hl]
    simp

theorem joinLines_data (rest : List String) :
    ∀ first : String,
      (joinLines first rest).data = first.data ++ rest.flatMap (fun l => '\n' :: l.data) := by
  induction rest with
  | nil => intro first; simp [joinLines]
  | cons l rest ih =>
    intro first
    have hstep : joinLines first (l :: rest) = joinLines (first ++ "\n" ++ l) rest := rfl
    rw [hstep, ih]
    simp [List.flatMap_cons]

theorem splitLines_joinLines (first : String) (rest : List String)
    (hfirst : noNewline first) (hrest : ∀ l ∈ rest, noNewline l) :
    splitLines (joinLines first rest).data [] = first :: rest := by
  rw [joinLines_data, splitLines_lines rest hrest first.data [] hfirst]
  simp

theorem loopBody_invariant (st : ReplState) (rawLine : String) (hraw : noNewline rawLine)
    (h : LoopInvariant st) : LoopInvariant (loopBody st rawLine).1 := by
  obtain ⟨hbuf, hmul, hev⟩ := h
  have hline : noNewline (TrimSpace rawLine) := TrimSpace_noNewline rawLine hraw
  cases hcmd : HasPrefix (TrimSpace rawLine) "." with
  | true =>
    rw [loopBody_command st rawLine hcmd]
    rcases handleCommand_cases (TrimSpace rawLine) st.buffer st.multiline with
      ⟨h1, h2⟩ | ⟨h1, h2⟩
    · rw [h1, h2]
      exact ⟨hbuf, hmul, hev⟩
    · rw [h1, h2]
      dsimp only [LoopInvariant]
      exact ⟨fun _ => rfl, fun hf => absurd hf (by decide), hev⟩
  | false =>
    cases hopen : opensBlock (TrimSpace rawLine) with
    | true =>
      rw [loopBody_opens st rawLine hcmd hopen]
      dsimp only [LoopInvariant]
      refine ⟨fun hf => absurd hf (by decide), fun _ => ?_, hev⟩
      cases hm : st.multiline with
      | false =>
        refine ⟨TrimSpace rawLine, [], ?_, hopen, fun l hl => absurd hl (List.not_mem_nil l),
          hline, fun l hl => absurd hl (List.not_mem_nil l)⟩
        simp [hbuf hm, joinLines]
      | true =>
        obtain ⟨first, middle, hb, hfirst, hmid, hnf, hnm⟩ := hmul hm
        refine ⟨first, middle ++ [TrimSpace rawLine], ?_, hfirst, ?_, hnf, ?_⟩
        · simp [hb, joinLines_snoc]
        · intro l hl
          rcases List.mem_append.mp hl with hl | hl
          · exact hmid l hl
          · rw [List.mem_singleton.mp hl]
            exact opensBlock_not_closes _ hopen
        · intro l hl
          rcases List.mem_append.mp hl with hl | hl
          · exact hnm l hl
          · rw [List.mem_singleton.mp hl]
            exact hline
    | false =>
      cases hclose : closesBlock (TrimSpace rawLine) with
      | true =>
        rw [loopBody_closes st rawLine hcmd hopen hclose]
        dsimp only [LoopInvariant]
        refine ⟨fun _ => rfl, fun hf => absurd hf (by decide), ?_⟩
        intro input hin
        rcases mem_evaluated _ _ _ hin with hin | ⟨hin, _⟩
        · exact hev input hin
        · rw [hin]
          cases hm : st.multiline with
          | false =>
            left
            simp only [hbuf hm, empty_append, Bool.false_eq_true, if_false]
            refine ⟨?_, hopen, hline⟩
            rcases closesBlock_eq _ hclose with hc | hc <;> rw [hc] <;> decide
          | true =>
            right
            obtain ⟨first, middle, hb, hfirst, hmid, hnf, hnm⟩ := hmul hm
            refine ⟨first, middle, TrimSpace rawLine, ?_, hfirst, hmid, hclose, hnf, hnm⟩
            simp [hb, joinLines_snoc]
      | false =>
        cases hm : st.multiline with
        | false =>
          rw [loopBody_plain_single st rawLine hcmd hopen hclose hm]
          dsimp only [LoopInvariant]
          refine ⟨fun _ => rfl, fun hf => absurd hf (by decide), ?_⟩
          intro input hin
          rcases mem_evaluated _ _ _ hin with hin | ⟨hin, hne⟩
          · exact hev input hin
          · rw [hin]
            left
            rw [hbuf hm, empty_append] at hne ⊢
            exact ⟨hne, hopen, hline⟩
        | true =>
          rw [loopBody_plain_multi st rawLine hcmd hopen hclose hm]
          dsimp only [LoopInvariant]
          refine ⟨fun hf => absurd hf (by decide), fun _ => ?_, hev⟩
          obtain ⟨first, middle, hb, hfirst, hmid, hnf, hnm⟩ := hmul hm
          refine ⟨first, middle ++ [TrimSpace rawLine], ?_, hfirst, ?_, hnf, ?_⟩
          · simp [hb, joinLines_snoc]
          · intro l hl
            rcases List.mem_append.mp hl with hl | hl
            · exact hmid l hl
            · rw [List.mem_singleton.mp hl]
              exact hclose
          · intro l hl
            rcases List.mem_append.mp hl with hl | hl
            · exact hnm l hl
            · rw [List.mem_singleton.mp hl]
              exact hline

theorem loop_invariant (rawLines : List String) :
    (∀ raw ∈ rawLines, noNewline raw) →
    ∀ st : ReplState, LoopInvariant st → LoopInvariant (loop st rawLines) := by
  induction rawLines with
  | nil => intro _ st h; exact h
  | cons rawLine rest ih =>
    intro hraw st h
    have hstep := loopBody_invariant st rawLine (hraw rawLine (List.mem_cons_self _ _)) h
    unfold loop
    split
    · exact hstep
    · exact ih (fun raw hr => hraw raw (List.mem_cons_of_mem _ hr)) _ hstep

theorem initial_invariant :
    LoopInvariant { buffer := "", multiline := false, evaluated := [] } :=
  ⟨fun _ => rfl, fun hf => absurd hf (by decide), fun _ hin => absurd hin (List.not_mem_nil _)⟩

theorem splitLines_single (input : String) (h : noNewline input) :
    splitLines input.data [] = [input] := by
  have := splitLines_joinLines input [] h (fun l hl => absurd hl (List.not_mem_nil l))
  simpa [joinLines] using this

theorem countP_closes_block (first : String) (middle : List String) (last : String)
    (hfirst : opensBlock first = true) (hmid : ∀ l ∈ middle, closesBlock l = false)
    (hlast : closesBlock last = true) :
    (first :: (middle ++ [last])).countP closesBlock = 1 := by
  have h0 : middle.countP closesBlock = 0 :=
    List.countP_eq_zero.mpr (fun l hl => by simp [hmid l hl])
  simp [List.countP_cons, h0, hlast, opensBlock_not_closes first hfirst]

theorem countP_opens_block (first : String) (rest : List String)
    (hfirst : opensBlock first = true) :
    1 ≤ (first :: rest).countP opensBlock := by
  simp [List.countP_cons, hfirst]

/-! ## Claims -/

/-- C17 (counterexample): on the lines `config {`, `server {`, `port 1`, `}`, `}`
the loop evaluates `config {`, `server {`, `port 1`, `}` as one input at the
first closing line, with two opening lines and one closing line, and then the
last `}` alone, with no opening line and one closing line. -/
theorem repl_nested_block_counterexample :
    runREPL ["config \x7b", "  server \x7b", "    port 1", "  \x7d", "\x7d"]
      = ["config \x7b\nserver \x7b\nport 1\n\x7d", "\x7d"]
    ∧ openingLines "config \x7b\nserver \x7b\nport 1\n\x7d" = 2
    ∧ closingLines "config \x7b\nserver \x7b\nport 1\n\x7d" = 1
    ∧ openingLines "\x7d" = 0
    ∧ closingLines "\x7d" = 1 := by
  decide

/-- C17 (amended): when no line read holds a newline, the lines of every input
the loop passes to `evaluateInput` are either that input alone, one non-empty
line that does not end in `{` or `[`, or a first line ending in `{` or `[`, then
lines none of which is exactly `}` or `]`, then a last line that is exactly `}`
or `]`; in the second case the input has exactly one closing line and at least
one opening line. -/
theorem repl_evaluated_input_lines (rawLines : List String)
    (hraw : ∀ raw ∈ rawLines, noNewline raw) (input : String)
    (h : input ∈ runREPL rawLines) :
    (splitLines input.data [] = [input] ∧ input ≠ "" ∧ opensBlock input = false)
    ∨ ∃ (first : String) (middle : List String) (last : String),
        splitLines input.data [] = first :: (middle ++ [last])
        ∧ input = joinLines first (middle ++ [last])
        ∧ opensBlock first = true
        ∧ (∀ l ∈ middle, closesBlock l = false)
        ∧ closesBlock last = true
        ∧ closingLines input = 1
        ∧ 1 ≤ openingLines input := by
  rcases (loop_invariant rawLines hraw _ initial_invariant).2.2 input h with
    ⟨hne, hopen, hnn⟩ | ⟨first, middle, last, hin, hfirst, hmid, hlast, hnf, hnm⟩
  · exact Or.inl ⟨splitLines_single input hnn, hne, hopen⟩
  · have hsplit : splitLines input.data [] = first :: (middle ++ [last]) := by
      rw [hin]
      apply splitLines_joinLines first (middle ++ [last]) hnf
      intro l hl
      rcases List.mem_append.mp hl with hl | hl
      · exact hnm l hl
      · rw [List.mem_singleton.mp hl]
        exact closesBlock_noNewline last hlast
    refine Or.inr ⟨first, middle, last, hsplit, hin, hfirst, hmid, hlast, ?_, ?_⟩
    · unfold closingLines
      rw [hsplit]
      exact countP_closes_block first middle last hfirst hmid hlast
    · unfold openingLines
      rw [hsplit]
      exact countP_opens_block first _ hfirst

/-- Witness of C17 (amended): on `config {`, `server {`, `port 1`, `}`, `}`,
`name John` the input evaluated at the first `}` has four lines, so it is of the
second kind. -/
theorem repl_evaluated_input_lines_witness :
    (∀ raw ∈ ["config \x7b", "  server \x7b", "    port 1", "  \x7d", "\x7d", "name John"],
        noNewline raw)
    ∧ "config \x7b\nserver \x7b\nport 1\n\x7d"
        ∈ runREPL ["config \x7b", "  server \x7b", "    port 1", "  \x7d", "\x7d", "name John"]
    ∧ splitLines ("config \x7b\nserver \x7b\nport 1\n\x7d" : String).data []
        = ["config \x7b", "server \x7b", "port 1", "\x7d"]
    ∧ ((splitLines ("config \x7b\nserver \x7b\nport 1\n\x7d" : String).data []
            = ["config \x7b\nserver \x7b\nport 1\n\x7d"]
          ∧ "config \x7b\nserver \x7b\nport 1\n\x7d" ≠ ""
          ∧ opensBlock "config \x7b\nserver \x7b\nport 1\n\x7d" = false)
        ∨ ∃ (first : String) (middle : List String) (last : String),
            splitLines ("config \x7b\nserver \x7b\nport 1\n\x7d" : String).data []
              = first :: (middle ++ [last])
            ∧ "config \x7b\nserver \x7b\nport 1\n\x7d" = joinLines first (middle ++ [last])
            ∧ opensBlock first = true
            ∧ (∀ l ∈ middle, closesBlock l = false)
            ∧ closesBlock last = true
            ∧ closingLines "config \x7b\nserver \x7b\nport 1\n\x7d" = 1
            ∧ 1 ≤ openingLines "config \x7b\nserver \x7b\nport 1\n\x7d") :=
  ⟨by decide, by decide, by decide,
    repl_evaluated_input_lines
      ["config \x7b", "  server \x7b", "    port 1", "  \x7d", "\x7d", "name John"]
      (by decide) "config \x7b\nserver \x7b\nport 1\n\x7d" (by decide)⟩

end UpRepl
